import Mathlib

/-!
# The lights module of the LGE P990 (`liblights/lights.c`)

A shallow embedding of `lights.c` and the properties of its three `set_light`
handlers and of `open_lights`.

* C `int` values are `Int`; the only place where the width of a machine word
  matters is the conversion `int color = state->color` of an `unsigned int`,
  which is embedded with an explicit reduction modulo `2^32`.
* The kernel side of a control file is an environment that answers every
  `write_int` / `read_int` call; it may depend on everything that happened
  before.  Every call is recorded, with its answer, in a chronological trace,
  together with the lock and unlock operations on `g_lock`.
* Logging (`ALOGV`, `ALOGE`, the `already_warned` flag) is not embedded.
-/

namespace Lights

/-! ## Data model -/

/-- The `struct light_state_t` of `<hardware/lights.h>`, with the fields `lights.c` reads.
`color` is an `unsigned int`: the value used is `color % 2^32`. -/
structure light_state_t where
  color : Nat
  flashMode : Int
  flashOnMS : Int
  flashOffMS : Int
  brightnessMode : Int

/-- The constants that `lights.c` takes from `<hardware/lights.h>` and `<errno.h>`.
These headers are not part of the repository, so the constants are a parameter of
the embedding. -/
structure Header where
  LIGHT_FLASH_TIMED : Int
  LIGHT_FLASH_HARDWARE : Int
  LIGHT_ID_BACKLIGHT : String
  LIGHT_ID_BUTTONS : String
  LIGHT_ID_NOTIFICATIONS : String
  EINVAL : Int

def LCD_FILE : String := "/sys/class/backlight/aat2870-backlight/brightness"

def BUTTON_BRIGHTNESS : String := "/sys/class/leds/star_led/brightness"

def BUTTON_STATE : String := "/sys/class/leds/star_led/enable"

def BUTTON_PULSE_INTERVAL : String := "/sys/class/leds/star_led/pulse_interval"

def BUTTON_PULSE : String := "/sys/class/leds/star_led/pulse"

def AUTO_BRIGHT_FILE : String := "/sys/class/backlight/aat2870-backlight/brightness_mode"

/-! ## The luminance computation -/

/-- The conversion of `int color = state->color;`: an `unsigned int` read as a
two's-complement 32-bit `int`. -/
def int_of_unsigned (u : Nat) : Int :=
  if u % 2 ^ 32 < 2 ^ 31 then ((u % 2 ^ 32 : Nat) : Int) else ((u % 2 ^ 32 : Nat) : Int) - 2 ^ 32

/-- The function `rgb_to_brightness` of `lights.c`.  `>>>` of an `Int` by a `Nat` is the
arithmetic shift `Int.shiftRight`, `Int.land` the bitwise and of two's-complement integers. -/
def rgb_to_brightness (state : light_state_t) : Int :=
  let color : Int := int_of_unsigned state.color
  ((77 * (Int.land (color >>> (16 : Nat)) 0x00ff))
    + (150 * (Int.land (color >>> (8 : Nat)) 0x00ff)) + (29 * (Int.land color 0x00ff))) >>> (8 : Nat)

/-- The luminance formula in the words of the specification:
`(77*R + 150*G + 29*B) >> 8` with `R` = bits 16-23, `G` = bits 8-15 and `B` = bits 0-7
of the color. -/
def luminance (C : Nat) : Nat :=
  (77 * (C / 2 ^ 16 % 2 ^ 8) + 150 * (C / 2 ^ 8 % 2 ^ 8) + 29 * (C % 2 ^ 8)) / 2 ^ 8

/-! ## The environment: control files, lock, trace -/

/-- A value of `errno` after a failed system call: a positive error number (POSIX error
numbers are positive, and no call sets `errno` to zero). -/
structure Errno where
  val : Int
  pos : 0 < val
  deriving DecidableEq

/-- What the kernel answers to the `open` / `write` of one `write_int` call:
`open` returned a negative descriptor, or `write` returned `-1`, or `write` returned
the number of bytes it took.  In the first two cases `errno` is the error number that
`write_int` reads. -/
inductive WriteOutcome where
  | open_failed (errno : Errno)
  | write_failed (errno : Errno)
  | written (amt : Nat)
  deriving DecidableEq

/-- What the kernel answers to the `open` / `read` of one `read_int` call; on a
successful `read`, `atoi` is the value `atoi(buffer)` yields on the one-byte buffer. -/
inductive ReadOutcome where
  | open_failed (errno : Errno)
  | read_failed (errno : Errno)
  | read (amt : Nat) (atoi : Int)
  deriving DecidableEq

/-- The observable operations of the module, in the order they happen. -/
inductive Event where
  | mutex_init
  | mutex_lock
  | mutex_unlock
  | write (path : String) (value : Int) (out : WriteOutcome)
  | read (path : String) (out : ReadOutcome)
  deriving DecidableEq

/-- The state the module runs in: the kernel's answers (which may depend on the whole
history), the `pthread_once` flag `g_init`, and the trace of the events so far. -/
structure World where
  kernel_write : List Event → String → Int → WriteOutcome
  kernel_read : List Event → String → ReadOutcome
  g_init : Bool
  trace : List Event

/-- Computations of the module: state passing over `World`. -/
def HAL (α : Type) : Type := World → α × World

instance : Monad HAL where
  pure a := fun w => (a, w)
  bind m f := fun w => f (m w).1 (m w).2

/-- Append an event to the trace. -/
def emit (e : Event) : HAL Unit :=
  fun w => ((), { w with trace := w.trace ++ [e] })

def pthread_mutex_lock : HAL Unit := emit Event.mutex_lock

def pthread_mutex_unlock : HAL Unit := emit Event.mutex_unlock

/-- The value `write_int` returns for an answer of the kernel:
`amt == -1 ? -errno : 0` after a successful `open`, `-errno` otherwise. -/
def WriteOutcome.ret : WriteOutcome → Int
  | .open_failed errno => -errno.val
  | .write_failed errno => -errno.val
  | .written _ => 0

/-- The value `read_int` returns for an answer of the kernel:
`amt == -1 ? -errno : atoi(buffer)` after a successful `open`, `-errno` otherwise. -/
def ReadOutcome.ret : ReadOutcome → Int
  | .open_failed errno => -errno.val
  | .read_failed errno => -errno.val
  | .read _ atoi => atoi

/-- The function `write_int` of `lights.c`: the `open`, `write` and `close` of one call
are one step, answered by the kernel and recorded in the trace. -/
def write_int (path : String) (value : Int) : HAL Int :=
  fun w =>
    let out := w.kernel_write w.trace path value
    (out.ret, { w with trace := w.trace ++ [Event.write path value out] })

/-- The function `read_int` of `lights.c`: the `open`, `read` and `close` of one call
are one step, answered by the kernel and recorded in the trace. -/
def read_int (path : String) : HAL Int :=
  fun w =>
    let out := w.kernel_read w.trace path
    (out.ret, { w with trace := w.trace ++ [Event.read path out] })

/-! ## The handlers -/

/-- The function `is_lit` of `lights.c`. -/
def is_lit (_state : light_state_t) : HAL Int := do
  let r ← read_int BUTTON_BRIGHTNESS
  return (if r > 0 then 1 else 0)

/-- The function `set_light_buttons` of `lights.c` (its `dev` argument is unused). -/
def set_light_buttons (state : light_state_t) : HAL Int := do
  let mut err : Int := 0
  let _on ← is_lit state
  let value : Int := rgb_to_brightness state
  pthread_mutex_lock
  if value ≥ 8 then
    err ← write_int BUTTON_BRIGHTNESS (Int.tdiv value 8)
  else if value > 0 ∧ value < 8 then
    err ← write_int BUTTON_BRIGHTNESS 1
  else
    err ← write_int BUTTON_BRIGHTNESS 0
  pthread_mutex_unlock
  return err

/-- The function `set_light_backlight` of `lights.c` (its `dev` argument is unused). -/
def set_light_backlight (state : light_state_t) : HAL Int := do
  let mut err : Int := 0
  let brightness : Int := rgb_to_brightness state
  pthread_mutex_lock
  err ← write_int LCD_FILE brightness
  pthread_mutex_unlock
  return err

/-- The function `set_light_notifications` of `lights.c` (its `dev` argument is unused). -/
def set_light_notifications (hdr : Header) (state : light_state_t) : HAL Int := do
  let mut err : Int := 0
  let bri : Int := rgb_to_brightness state
  let flashMode : Int := state.flashMode
  let flashOnMS : Int := state.flashOnMS
  let flashOffMS : Int := state.flashOffMS
  pthread_mutex_lock
  if bri = 0 then
    err ← write_int BUTTON_STATE 0
  else
    if flashMode = hdr.LIGHT_FLASH_TIMED ∨ flashMode = hdr.LIGHT_FLASH_HARDWARE then
      if flashOnMS ≠ 0 ∧ flashOffMS ≠ 0 then
        err ← write_int BUTTON_PULSE flashOnMS
        if err = 0 then err ← write_int BUTTON_PULSE_INTERVAL flashOffMS
    if err = 0 then err ← write_int BUTTON_BRIGHTNESS bri
    if err = 0 then err ← write_int BUTTON_STATE 1
  pthread_mutex_unlock
  return err

/-! ## Opening a device -/

/-- The part of `struct light_device_t` that `open_lights` fills in and a caller uses:
the handler bound to the device. -/
structure light_device_t where
  set_light : light_state_t → HAL Int

/-- The function `init_globals` of `lights.c`. -/
def init_globals : HAL Unit := emit Event.mutex_init

/-- The call `pthread_once(&g_init, init_globals)`. -/
def pthread_once_g_init : HAL Unit :=
  fun w => if w.g_init then ((), w) else init_globals { w with g_init := true }

/-- The function `open_lights` of `lights.c`: the status it returns and the device it
stores through `device`, when it stores one.  The local `set_light` is uninitialised in C;
its initial value here is never used, since every path that goes on assigns it.  `malloc`
is taken to succeed. -/
def open_lights (hdr : Header) (name : String) : HAL (Int × Option light_device_t) := do
  let mut set_light : light_state_t → HAL Int := fun _ => pure 0
  if hdr.LIGHT_ID_BACKLIGHT = name then
    set_light := set_light_backlight
  else if hdr.LIGHT_ID_BUTTONS = name then
    set_light := set_light_buttons
  else if hdr.LIGHT_ID_NOTIFICATIONS = name then
    set_light := set_light_notifications hdr
  else
    return (-hdr.EINVAL, none)
  pthread_once_g_init
  let dev : light_device_t := { set_light := set_light }
  return (0, some dev)

/-! ## Channels, plans and observations on traces -/

/-- The three logical lights of the specification. -/
inductive Channel where
  | BACKLIGHT
  | BUTTONS
  | NOTIFICATION

/-- The `apply` of the specification: the call `dev->set_light(dev, state)` on a device
that `open_lights` bound to the channel. -/
def apply_channel (hdr : Header) : Channel → light_state_t → HAL Int
  | .BACKLIGHT => set_light_backlight
  | .BUTTONS => set_light_buttons
  | .NOTIFICATION => set_light_notifications hdr

/-- The events a computation adds to the trace of the world it starts in. -/
def events_of {α : Type} (m : HAL α) (w : World) : List Event :=
  (m w).2.trace.drop w.trace.length

/-- Is the event a `write_int` call? -/
def Event.isWrite : Event → Bool
  | .write _ _ _ => true
  | _ => false

/-- Is the event a `read_int` call? -/
def Event.isRead : Event → Bool
  | .read _ _ => true
  | _ => false

/-- Is the event the acquisition of `g_lock`? -/
def Event.isLock : Event → Bool
  | .mutex_lock => true
  | _ => false

/-- Is the event the release of `g_lock`? -/
def Event.isUnlock : Event → Bool
  | .mutex_unlock => true
  | _ => false

/-- The path and value of a `write_int` call. -/
def Event.call : Event → Option (String × Int)
  | .write path value _ => some (path, value)
  | _ => none

/-- The code a `write_int` call returned (0 for an event that is no such call). -/
def Event.code : Event → Int
  | .write _ _ out => out.ret
  | _ => 0

/-- Did the `open` or the `write` of a `write_int` call fail? -/
def Event.writeFailed : Event → Bool
  | .write _ _ (.open_failed _) => true
  | .write _ _ (.write_failed _) => true
  | _ => false

/-- Did the `open`, `read` or `write` of a control-file access fail? -/
def Event.ioFailed : Event → Bool
  | .write _ _ (.open_failed _) => true
  | .write _ _ (.write_failed _) => true
  | .read _ (.open_failed _) => true
  | .read _ (.read_failed _) => true
  | _ => false

/-- The `write_int` calls among some events, in order. -/
def attempted (es : List Event) : List Event := es.filter Event.isWrite

/-- The paths and values of the `write_int` calls among some events, in order. -/
def writes_of (es : List Event) : List (String × Int) := es.filterMap Event.call

/-- The rescaling of the Buttons channel in the words of the specification:
`brightness/8` when `brightness >= 8`, `1` when `0 < brightness < 8`, else `0`. -/
def button_scale (b : Int) : Int :=
  if b ≥ 8 then b / 8 else if 0 < b ∧ b < 8 then 1 else 0

/-- The flash condition of the Notification channel in the words of the specification:
the flash mode is TIMED or HARDWARE and both durations are nonzero. -/
def flashing (hdr : Header) (state : light_state_t) : Prop :=
  (state.flashMode = hdr.LIGHT_FLASH_TIMED ∨ state.flashMode = hdr.LIGHT_FLASH_HARDWARE) ∧
    state.flashOnMS ≠ 0 ∧ state.flashOffMS ≠ 0

instance (hdr : Header) (state : light_state_t) : Decidable (flashing hdr state) := by
  unfold flashing
  infer_instance

/-- The planned writes of a channel in the words of the specification: the writes of
one `apply` when none of them fails. -/
def plan (hdr : Header) (ch : Channel) (state : light_state_t) : List (String × Int) :=
  let b : Int := luminance state.color
  match ch with
  | .BACKLIGHT => [(LCD_FILE, b)]
  | .BUTTONS => [(BUTTON_BRIGHTNESS, button_scale b)]
  | .NOTIFICATION =>
    if b = 0 then [(BUTTON_STATE, 0)]
    else
      (if flashing hdr state then
        [(BUTTON_PULSE, state.flashOnMS), (BUTTON_PULSE_INTERVAL, state.flashOffMS)]
      else []) ++ [(BUTTON_BRIGHTNESS, b), (BUTTON_STATE, 1)]

/-! ## Fail-fast sequences of writes -/

/-- Attempting writes in order until one returns a nonzero code; the code returned is
that of the last attempt, 0 when there is nothing to write. -/
def run_writes : List (String × Int) → HAL Int
  | [] => pure 0
  | (path, value) :: rest => fun w =>
    if (write_int path value w).1 = 0 then run_writes rest (write_int path value w).2
    else write_int path value w

/-- A sequence of writes attempted under `g_lock`. -/
def locked_writes (pl : List (String × Int)) : HAL Int := do
  pthread_mutex_lock
  let err ← run_writes pl
  pthread_mutex_unlock
  return err

/-- The relation between planned writes, the write events of a fail-fast execution and
the code it returns. -/
inductive FailFast : List (String × Int) → List Event → Int → Prop where
  | nil : FailFast [] [] 0
  | stop (path : String) (value : Int) (out : WriteOutcome) (rest : List (String × Int)) :
      out.ret ≠ 0 → FailFast ((path, value) :: rest) [Event.write path value out] out.ret
  | step (path : String) (value : Int) (out : WriteOutcome) (rest : List (String × Int))
      (es : List Event) (ret : Int) :
      out.ret = 0 → FailFast rest es ret →
      FailFast ((path, value) :: rest) (Event.write path value out :: es) ret

/-! ## Concrete inputs -/

/-- The values the constants have in the Android headers. -/
def android_header : Header :=
  { LIGHT_FLASH_TIMED := 1
    LIGHT_FLASH_HARDWARE := 2
    LIGHT_ID_BACKLIGHT := "backlight"
    LIGHT_ID_BUTTONS := "buttons"
    LIGHT_ID_NOTIFICATIONS := "notifications"
    EINVAL := 22 }

def ENOENT : Errno := ⟨2, by decide⟩

def EIO : Errno := ⟨5, by decide⟩

/-- A world in which every control file exists and takes every write; the
button-brightness file reads as 0. -/
def world_ok : World :=
  { kernel_write := fun _ _ _ => WriteOutcome.written 2
    kernel_read := fun _ _ => ReadOutcome.read 1 0
    g_init := false
    trace := [] }

/-- A world in which no control file can be opened for reading, and every write is taken. -/
def world_unreadable : World :=
  { kernel_write := fun _ _ _ => WriteOutcome.written 2
    kernel_read := fun _ _ => ReadOutcome.open_failed ENOENT
    g_init := true
    trace := [] }

/-- A world in which writing the pulse file fails and every other write is taken. -/
def world_pulse_fails : World :=
  { kernel_write := fun _ path _ =>
      if path = BUTTON_PULSE then WriteOutcome.write_failed EIO else WriteOutcome.written 2
    kernel_read := fun _ _ => ReadOutcome.read 1 0
    g_init := true
    trace := [] }

/-- A white notification that flashes 500 ms on, 500 ms off. -/
def state_flash : light_state_t :=
  { color := 0xFFFFFF, flashMode := 1, flashOnMS := 500, flashOffMS := 500, brightnessMode := 0 }

/-- A black state without flashing, with a nonzero most-significant byte. -/
def state_off : light_state_t :=
  { color := 0x7F000000, flashMode := 0, flashOnMS := 0, flashOffMS := 0, brightnessMode := 0 }

/-! ## Lemmas on the luminance computation -/

/-- Masking a two's-complement integer with `0xff` keeps its residue modulo 256. -/
theorem land_255_eq_emod (x : Int) : Int.land x 255 = x % 256 := by
  cases x with
  | ofNat n =>
    show ((n &&& 255 : Nat) : Int) = _
    have hn : n &&& 255 = n % 256 := Nat.and_pow_two_sub_one_eq_mod n 8
    rw [hn]; rfl
  | negSucc m =>
    show ((Nat.ldiff 255 m : Nat) : Int) = _
    have h : Nat.ldiff 255 m = 255 - m % 256 := by
      apply Nat.eq_of_testBit_eq
      intro i
      rw [Nat.testBit_ldiff]
      have h2 : m % 256 < 2 ^ 8 := Nat.mod_lt _ (by norm_num)
      have h3 := Nat.testBit_two_pow_sub_succ h2 i
      have e : 2 ^ 8 - (m % 256 + 1) = 255 - m % 256 := by omega
      rw [e] at h3
      rw [h3]
      have h4 := Nat.testBit_two_pow_sub_one 8 i
      simp at h4
      rw [h4]
      have h5 := Nat.testBit_mod_two_pow m 8 i
      simp at h5
      rw [h5]
      by_cases hi : i < 8 <;> simp [hi]
    rw [h]
    have hneg : Int.negSucc m = -(m : Int) - 1 := by rw [Int.negSucc_eq]; ring
    rw [hneg]
    omega

theorem int_of_unsigned_cases (u : Nat) :
    int_of_unsigned u = ((u % 2 ^ 32 : Nat) : Int) ∨
      int_of_unsigned u = ((u % 2 ^ 32 : Nat) : Int) - 2 ^ 32 := by
  unfold int_of_unsigned
  split
  · exact Or.inl rfl
  · exact Or.inr rfl

/-- The three masked bytes of the converted color are the bytes of the color. -/
theorem bytes_of_color (u : Nat) :
    Int.land (int_of_unsigned u >>> (16 : Nat)) 0x00ff = ((u / 2 ^ 16 % 2 ^ 8 : Nat) : Int) ∧
    Int.land (int_of_unsigned u >>> (8 : Nat)) 0x00ff = ((u / 2 ^ 8 % 2 ^ 8 : Nat) : Int) ∧
    Int.land (int_of_unsigned u) 0x00ff = ((u % 2 ^ 8 : Nat) : Int) := by
  simp only [land_255_eq_emod, Int.shiftRight_eq_div_pow]
  rcases int_of_unsigned_cases u with h | h <;> rw [h] <;> push_cast <;>
    refine ⟨?_, ?_, ?_⟩ <;> omega

/-- The code computes the luminance formula of the specification. -/
theorem rgb_to_brightness_eq_luminance (state : light_state_t) :
    rgb_to_brightness state = ((luminance state.color : Nat) : Int) := by
  obtain ⟨hr, hg, hb⟩ := bytes_of_color state.color
  simp only [rgb_to_brightness]
  rw [hr, hg, hb, Int.shiftRight_eq_div_pow]
  unfold luminance
  push_cast
  rfl

theorem luminance_le (C : Nat) : luminance C ≤ 255 := by
  unfold luminance
  omega

/-! ## The monad -/

@[simp] theorem HAL.bind_apply {α β : Type} (m : HAL α) (f : α → HAL β) (w : World) :
    (m >>= f) w = f (m w).1 (m w).2 := rfl

@[simp] theorem HAL.pure_apply {α : Type} (a : α) (w : World) :
    (pure a : HAL α) w = (a, w) := rfl

/-! ## The luminance formula -/

/-- C1: for every color, `rgb_to_brightness` returns `(77*R + 150*G + 29*B) >> 8` where
`R`, `G`, `B` are bits 16-23, 8-15 and 0-7 of the color, and replacing the most-significant
byte of the color by any other value does not change the result. -/
theorem rgb_to_brightness_formula (state : light_state_t) :
    rgb_to_brightness state =
        (((77 * (state.color / 2 ^ 16 % 2 ^ 8) + 150 * (state.color / 2 ^ 8 % 2 ^ 8)
          + 29 * (state.color % 2 ^ 8)) >>> 8 : Nat) : Int) ∧
      ∀ msb : Nat,
        rgb_to_brightness { state with color := msb * 2 ^ 24 + state.color % 2 ^ 24 } =
          rgb_to_brightness state := by
  constructor
  · rw [rgb_to_brightness_eq_luminance, Nat.shiftRight_eq_div_pow]
    rfl
  · intro msb
    rw [rgb_to_brightness_eq_luminance, rgb_to_brightness_eq_luminance]
    congr 1
    show luminance (msb * 2 ^ 24 + state.color % 2 ^ 24) = luminance state.color
    unfold luminance
    have h1 : (msb * 2 ^ 24 + state.color % 2 ^ 24) / 2 ^ 16 % 2 ^ 8 = state.color / 2 ^ 16 % 2 ^ 8 := by
      omega
    have h2 : (msb * 2 ^ 24 + state.color % 2 ^ 24) / 2 ^ 8 % 2 ^ 8 = state.color / 2 ^ 8 % 2 ^ 8 := by
      omega
    have h3 : (msb * 2 ^ 24 + state.color % 2 ^ 24) % 2 ^ 8 = state.color % 2 ^ 8 := by
      omega
    rw [h1, h2, h3]

/-- C2 (as amended): the luminance of `0xFFFFFF` is 255, of `0x000000` is 0 and of
`0xFF0000` is 76 (`77 * 255 = 19635`, and `19635 >> 8 = 76`), whatever the other fields
of the state. -/
theorem rgb_to_brightness_examples (flashMode flashOnMS flashOffMS brightnessMode : Int) :
    rgb_to_brightness ⟨0xFFFFFF, flashMode, flashOnMS, flashOffMS, brightnessMode⟩ = 255 ∧
    rgb_to_brightness ⟨0x000000, flashMode, flashOnMS, flashOffMS, brightnessMode⟩ = 0 ∧
    rgb_to_brightness ⟨0xFF0000, flashMode, flashOnMS, flashOffMS, brightnessMode⟩ = 76 := by
  refine ⟨?_, ?_, ?_⟩ <;> rw [rgb_to_brightness_eq_luminance] <;> norm_num [luminance]

/-- C2 fails as stated: on the color `0xFF0000` the code returns 76, which is not the 77
of the claim. -/
theorem rgb_to_brightness_red_is_not_77 :
    rgb_to_brightness ⟨0xFF0000, 0, 0, 0, 0⟩ = 76 ∧
      rgb_to_brightness ⟨0xFF0000, 0, 0, 0, 0⟩ ≠ 77 := by
  constructor
  · decide
  · decide

theorem HAL.ite_apply {α : Type} (c : Prop) [Decidable c] (m1 m2 : HAL α) (w : World) :
    (if c then m1 else m2) w = if c then m1 w else m2 w := by
  split <;> rfl

theorem write_int_apply (path : String) (value : Int) (w : World) :
    write_int path value w =
      ((w.kernel_write w.trace path value).ret,
        { w with trace := w.trace ++ [Event.write path value (w.kernel_write w.trace path value)] }) :=
  rfl

theorem run_writes_nil (w : World) : run_writes [] w = (0, w) := rfl

theorem run_writes_cons (path : String) (value : Int) (rest : List (String × Int)) (w : World) :
    run_writes ((path, value) :: rest) w =
      if (write_int path value w).1 = 0 then run_writes rest (write_int path value w).2
      else write_int path value w := rfl

/-! ## The handlers as fail-fast sequences under the lock -/

theorem set_light_backlight_eq (hdr : Header) (state : light_state_t) :
    set_light_backlight state = locked_writes (plan hdr Channel.BACKLIGHT state) := by
  funext w
  simp only [set_light_backlight, locked_writes, plan, run_writes_cons, run_writes_nil,
    HAL.bind_apply, HAL.pure_apply, rgb_to_brightness_eq_luminance]
  split_ifs with h
  · rw [← h]
  · rfl

theorem set_light_notifications_eq (hdr : Header) (state : light_state_t) :
    set_light_notifications hdr state = locked_writes (plan hdr Channel.NOTIFICATION state) := by
  funext w
  by_cases hb : ((luminance state.color : Nat) : Int) = 0
  · have hplan : plan hdr Channel.NOTIFICATION state = [(BUTTON_STATE, 0)] := by
      simp [plan, hb]
    rw [hplan]
    simp only [set_light_notifications, locked_writes, rgb_to_brightness_eq_luminance, hb,
      if_true, run_writes_cons, run_writes_nil, HAL.bind_apply, HAL.pure_apply, HAL.ite_apply]
    split_ifs <;> simp [*]
  · by_cases hm : state.flashMode = hdr.LIGHT_FLASH_TIMED ∨ state.flashMode = hdr.LIGHT_FLASH_HARDWARE
    · by_cases hd : state.flashOnMS ≠ 0 ∧ state.flashOffMS ≠ 0
      · have hplan : plan hdr Channel.NOTIFICATION state =
            [(BUTTON_PULSE, state.flashOnMS), (BUTTON_PULSE_INTERVAL, state.flashOffMS),
              (BUTTON_BRIGHTNESS, ((luminance state.color : Nat) : Int)), (BUTTON_STATE, 1)] := by
          have hf : flashing hdr state := ⟨hm, hd⟩
          simp only [plan, hb, hf, if_true, if_false, List.cons_append, List.nil_append]
        rw [hplan]
        simp only [set_light_notifications, locked_writes, rgb_to_brightness_eq_luminance, hb, hm,
          hd, if_true, if_false, run_writes_cons, run_writes_nil, HAL.bind_apply, HAL.pure_apply,
          HAL.ite_apply]
        split_ifs <;> simp [*]
      · have hplan : plan hdr Channel.NOTIFICATION state =
            [(BUTTON_BRIGHTNESS, ((luminance state.color : Nat) : Int)), (BUTTON_STATE, 1)] := by
          have hf : ¬ flashing hdr state := fun h => hd h.2
          simp only [plan, hb, hf, if_false, List.nil_append]
        rw [hplan]
        simp only [set_light_notifications, locked_writes, rgb_to_brightness_eq_luminance, hb, hm,
          hd, if_true, if_false, run_writes_cons, run_writes_nil, HAL.bind_apply, HAL.pure_apply,
          HAL.ite_apply]
        split_ifs <;> simp [*]
    · have hplan : plan hdr Channel.NOTIFICATION state =
          [(BUTTON_BRIGHTNESS, ((luminance state.color : Nat) : Int)), (BUTTON_STATE, 1)] := by
        have hf : ¬ flashing hdr state := fun h => hm h.1
        simp only [plan, hb, hf, if_false, List.nil_append]
      rw [hplan]
      simp only [set_light_notifications, locked_writes, rgb_to_brightness_eq_luminance, hb, hm,
        if_true, if_false, run_writes_cons, run_writes_nil, HAL.bind_apply, HAL.pure_apply,
        HAL.ite_apply]
      split_ifs <;> simp [*]

theorem button_scale_eq (state : light_state_t) :
    (if rgb_to_brightness state ≥ 8 then Int.tdiv (rgb_to_brightness state) 8
      else if rgb_to_brightness state > 0 ∧ rgb_to_brightness state < 8 then 1 else 0) =
      button_scale (rgb_to_brightness state) := by
  unfold button_scale
  by_cases h : rgb_to_brightness state ≥ 8
  · rw [if_pos h, if_pos h]
    exact Int.tdiv_eq_ediv (by omega) (by decide)
  · rw [if_neg h, if_neg h]

theorem set_light_buttons_eq (hdr : Header) (state : light_state_t) (w : World) :
    set_light_buttons state w =
      locked_writes (plan hdr Channel.BUTTONS state) (is_lit state w).2 := by
  have hplan : plan hdr Channel.BUTTONS state =
      [(BUTTON_BRIGHTNESS, button_scale (rgb_to_brightness state))] := by
    simp only [plan, rgb_to_brightness_eq_luminance]
  rw [hplan, ← button_scale_eq]
  simp only [set_light_buttons, locked_writes, run_writes_cons, run_writes_nil,
    HAL.bind_apply, HAL.pure_apply, HAL.ite_apply]
  split_ifs <;> simp [*]

/-- A fail-fast execution extends the trace by write events that stand in the relation
`FailFast` to the plan and the returned code. -/
theorem run_writes_failFast (pl : List (String × Int)) :
    ∀ w : World, ∃ es : List Event,
      (run_writes pl w).2.trace = w.trace ++ es ∧ FailFast pl es (run_writes pl w).1 := by
  induction pl with
  | nil =>
    intro w
    exact ⟨[], by simp [run_writes_nil], FailFast.nil⟩
  | cons pv rest ih =>
    intro w
    obtain ⟨path, value⟩ := pv
    rw [run_writes_cons]
    by_cases h : (write_int path value w).1 = 0
    · rw [if_pos h]
      obtain ⟨es, hes, hff⟩ := ih (write_int path value w).2
      refine ⟨Event.write path value (w.kernel_write w.trace path value) :: es, ?_, ?_⟩
      · rw [hes]
        simp [write_int_apply]
      · exact FailFast.step _ _ _ _ _ _ h hff
    · rw [if_neg h]
      exact ⟨[Event.write path value (w.kernel_write w.trace path value)], rfl,
        FailFast.stop _ _ _ _ h⟩

theorem locked_writes_shape (pl : List (String × Int)) (w : World) :
    ∃ es : List Event,
      (locked_writes pl w).2.trace = w.trace ++ Event.mutex_lock :: (es ++ [Event.mutex_unlock]) ∧
      FailFast pl es (locked_writes pl w).1 := by
  obtain ⟨es, hes, hff⟩ := run_writes_failFast pl (pthread_mutex_lock w).2
  refine ⟨es, ?_, hff⟩
  simp only [locked_writes, HAL.bind_apply, HAL.pure_apply]
  show (run_writes pl (pthread_mutex_lock w).2).2.trace ++ [Event.mutex_unlock] = _
  rw [hes]
  simp [pthread_mutex_lock, emit]

/-- The shape of one `apply`: reads (the read-back of the Buttons channel), then the lock,
a fail-fast execution of the plan, and the unlock. -/
theorem apply_channel_shape (hdr : Header) (ch : Channel) (state : light_state_t) (w : World) :
    ∃ pre es : List Event,
      (∀ e ∈ pre, e.isRead = true) ∧
      (apply_channel hdr ch state w).2.trace =
        w.trace ++ (pre ++ Event.mutex_lock :: (es ++ [Event.mutex_unlock])) ∧
      FailFast (plan hdr ch state) es (apply_channel hdr ch state w).1 := by
  cases ch with
  | BACKLIGHT =>
    obtain ⟨es, hes, hff⟩ := locked_writes_shape (plan hdr Channel.BACKLIGHT state) w
    refine ⟨[], es, by simp, ?_, ?_⟩
    · simpa [apply_channel, set_light_backlight_eq hdr] using hes
    · simpa [apply_channel, set_light_backlight_eq hdr] using hff
  | BUTTONS =>
    obtain ⟨es, hes, hff⟩ :=
      locked_writes_shape (plan hdr Channel.BUTTONS state) (is_lit state w).2
    refine ⟨[Event.read BUTTON_BRIGHTNESS (w.kernel_read w.trace BUTTON_BRIGHTNESS)], es,
      by simp [Event.isRead], ?_, ?_⟩
    · simp only [apply_channel, set_light_buttons_eq hdr]
      rw [hes]
      simp [is_lit, read_int]
    · simpa [apply_channel, set_light_buttons_eq hdr] using hff
  | NOTIFICATION =>
    obtain ⟨es, hes, hff⟩ := locked_writes_shape (plan hdr Channel.NOTIFICATION state) w
    refine ⟨[], es, by simp, ?_, ?_⟩
    · simpa [apply_channel, set_light_notifications_eq hdr] using hes
    · simpa [apply_channel, set_light_notifications_eq hdr] using hff

/-! ## Consequences of a fail-fast execution -/

theorem writeFailed_iff_ret_ne_zero (path : String) (value : Int) (out : WriteOutcome) :
    (Event.write path value out).writeFailed = true ↔ out.ret ≠ 0 := by
  cases out with
  | open_failed errno =>
    have := errno.pos
    simp only [Event.writeFailed, WriteOutcome.ret, true_iff]
    omega
  | write_failed errno =>
    have := errno.pos
    simp only [Event.writeFailed, WriteOutcome.ret, true_iff]
    omega
  | written amt => simp [Event.writeFailed, WriteOutcome.ret]

theorem WriteOutcome.ret_nonpos (out : WriteOutcome) : out.ret ≤ 0 := by
  cases out with
  | open_failed errno =>
    have := errno.pos
    simp only [WriteOutcome.ret]
    omega
  | write_failed errno =>
    have := errno.pos
    simp only [WriteOutcome.ret]
    omega
  | written amt => simp [WriteOutcome.ret]

theorem FailFast.all_writes {pl : List (String × Int)} {es : List Event} {ret : Int}
    (h : FailFast pl es ret) : ∀ e ∈ es, e.isWrite = true := by
  induction h with
  | nil => simp
  | stop path value out rest hne => simp [Event.isWrite]
  | step path value out rest es ret h0 hff ih =>
    intro e he
    rcases List.mem_cons.mp he with rfl | he
    · rfl
    · exact ih e he

theorem FailFast.calls_prefix {pl : List (String × Int)} {es : List Event} {ret : Int}
    (h : FailFast pl es ret) : writes_of es <+: pl := by
  induction h with
  | nil => simp [writes_of]
  | stop path value out rest hne =>
    exact ⟨rest, by simp [writes_of, Event.call]⟩
  | step path value out rest es ret h0 hff ih =>
    obtain ⟨t, ht⟩ := ih
    refine ⟨t, ?_⟩
    simp only [writes_of] at ht
    simp [writes_of, Event.call, ht]

theorem FailFast.calls_mem {pl : List (String × Int)} {es : List Event} {ret : Int}
    (h : FailFast pl es ret) : ∀ e ∈ es, ∃ pv ∈ pl, e.call = some pv := by
  induction h with
  | nil => simp
  | stop path value out rest hne =>
    intro e he
    rw [List.mem_singleton] at he
    subst he
    exact ⟨(path, value), List.mem_cons_self _ _, rfl⟩
  | step path value out rest es ret h0 hff ih =>
    intro e he
    rcases List.mem_cons.mp he with rfl | he
    · exact ⟨(path, value), List.mem_cons_self _ _, rfl⟩
    · obtain ⟨pv, hpv, hc⟩ := ih e he
      exact ⟨pv, List.mem_cons_of_mem _ hpv, hc⟩

theorem FailFast.dropLast_ok {pl : List (String × Int)} {es : List Event} {ret : Int}
    (h : FailFast pl es ret) : ∀ e ∈ es.dropLast, e.code = 0 := by
  induction h with
  | nil => simp
  | stop path value out rest hne => simp
  | step path value out rest es ret h0 hff ih =>
    intro e he
    cases es with
    | nil => simp at he
    | cons e1 es1 =>
      rw [List.dropLast_cons₂] at he
      rcases List.mem_cons.mp he with rfl | he
      · exact h0
      · exact ih e he

theorem FailFast.last_code {pl : List (String × Int)} {es : List Event} {ret : Int}
    (h : FailFast pl es ret) (hne : pl ≠ []) : es.getLast?.map Event.code = some ret := by
  induction h with
  | nil => exact absurd rfl hne
  | stop path value out rest hne1 => simp [Event.code]
  | step path value out rest es ret h0 hff ih =>
    cases hff with
    | nil => simp [Event.code, h0]
    | stop path1 value1 out1 rest1 hne1 => simp [Event.code]
    | step path1 value1 out1 rest1 es1 ret1 h1 hff1 =>
      have := ih (List.cons_ne_nil _ _)
      rw [List.getLast?_cons_cons]
      exact this

theorem FailFast.zero_iff {pl : List (String × Int)} {es : List Event} {ret : Int}
    (h : FailFast pl es ret) : ret = 0 ↔ (writes_of es = pl ∧ ∀ e ∈ es, e.code = 0) := by
  induction h with
  | nil => simp [writes_of]
  | stop path value out rest hne =>
    constructor
    · intro h0
      exact absurd h0 hne
    · intro h1
      have := h1.2 (Event.write path value out) (List.mem_singleton.mpr rfl)
      exact this
  | step path value out rest es ret h0 hff ih =>
    constructor
    · intro hr
      obtain ⟨h1, h2⟩ := ih.mp hr
      refine ⟨?_, ?_⟩
      · simp only [writes_of] at h1
        simp [writes_of, Event.call, h1]
      · intro e he
        rcases List.mem_cons.mp he with rfl | he
        · exact h0
        · exact h2 e he
    · intro h1
      apply ih.mpr
      refine ⟨?_, fun e he => h1.2 e (List.mem_cons_of_mem _ he)⟩
      have h3 := h1.1
      simp only [writes_of, List.filterMap_cons, Event.call, List.cons.injEq, true_and] at h3
      exact h3

theorem FailFast.failed_iff {pl : List (String × Int)} {es : List Event} {ret : Int}
    (h : FailFast pl es ret) : ret ≠ 0 ↔ ∃ e ∈ es, e.writeFailed = true := by
  induction h with
  | nil => simp
  | stop path value out rest hne =>
    simp only [List.mem_singleton, exists_eq_left, writeFailed_iff_ret_ne_zero]
  | step path value out rest es ret h0 hff ih =>
    rw [ih]
    have hn : ¬ (Event.write path value out).writeFailed = true := by
      rw [writeFailed_iff_ret_ne_zero]
      exact fun hc => hc h0
    constructor
    · rintro ⟨e, he, hf⟩
      exact ⟨e, List.mem_cons_of_mem _ he, hf⟩
    · rintro ⟨e, he, hf⟩
      rcases List.mem_cons.mp he with rfl | he
      · exact absurd hf hn
      · exact ⟨e, he, hf⟩

theorem FailFast.nonpos {pl : List (String × Int)} {es : List Event} {ret : Int}
    (h : FailFast pl es ret) : ret ≤ 0 := by
  induction h with
  | nil => exact le_refl 0
  | stop path value out rest hne => exact out.ret_nonpos
  | step path value out rest es ret h0 hff ih => exact ih

/-- The first planned write is always attempted; when it fails it is the only one. -/
theorem FailFast.first {path : String} {value : Int} {rest : List (String × Int)}
    {es : List Event} {ret : Int} (h : FailFast ((path, value) :: rest) es ret) :
    ∃ out es1, es = Event.write path value out :: es1 ∧
      (out.ret ≠ 0 → es1 = [] ∧ ret = out.ret) ∧
      (∀ e ∈ es1, ∃ pv ∈ rest, e.call = some pv) := by
  cases h with
  | stop _ _ out _ hne =>
    exact ⟨out, [], rfl, fun _ => ⟨rfl, rfl⟩, by simp⟩
  | step _ _ out _ es1 _ h0 hff =>
    exact ⟨out, es1, rfl, fun hne => absurd h0 hne, hff.calls_mem⟩

theorem FailFast.all_ok {pl : List (String × Int)} {es : List Event} {ret : Int}
    (h : FailFast pl es ret) (hok : ∀ e ∈ es, e.code = 0) : writes_of es = pl ∧ ret = 0 := by
  induction h with
  | nil => simp [writes_of]
  | stop path value out rest hne =>
    exact absurd (hok (Event.write path value out) (List.mem_singleton.mpr rfl)) hne
  | step path value out rest es ret h0 hff ih =>
    obtain ⟨h1, h2⟩ := ih (fun e he => hok e (List.mem_cons_of_mem _ he))
    simp only [writes_of] at h1
    exact ⟨by simp [writes_of, Event.call, h1], h2⟩

/-! ## Events of one call -/

theorem events_of_eq {α : Type} (m : HAL α) (w : World) (es : List Event)
    (h : (m w).2.trace = w.trace ++ es) : events_of m w = es := by
  simp [events_of, h]

theorem locked_writes_single (path : String) (value : Int) (w : World) :
    locked_writes [(path, value)] w =
      ((w.kernel_write (w.trace ++ [Event.mutex_lock]) path value).ret,
        { w with trace := w.trace ++
            [Event.mutex_lock,
              Event.write path value (w.kernel_write (w.trace ++ [Event.mutex_lock]) path value),
              Event.mutex_unlock] }) := by
  simp only [locked_writes, run_writes_cons, run_writes_nil, HAL.bind_apply, HAL.pure_apply]
  split_ifs with h <;>
    simp_all [write_int_apply, pthread_mutex_lock, pthread_mutex_unlock, emit]

theorem attempted_shape (pre es : List Event) (hpre : ∀ e ∈ pre, e.isRead = true)
    (hes : ∀ e ∈ es, e.isWrite = true) :
    attempted (pre ++ Event.mutex_lock :: (es ++ [Event.mutex_unlock])) = es := by
  have h1 : pre.filter Event.isWrite = [] := by
    apply List.filter_eq_nil_iff.mpr
    intro e he
    have := hpre e he
    cases e <;> simp_all [Event.isRead, Event.isWrite]
  have h2 : es.filter Event.isWrite = es := List.filter_eq_self.mpr hes
  simp [attempted, List.filter_append, List.filter_cons, h1, h2, Event.isWrite]

theorem writes_of_shape (pre es : List Event) (hpre : ∀ e ∈ pre, e.isRead = true) :
    writes_of (pre ++ Event.mutex_lock :: (es ++ [Event.mutex_unlock])) = writes_of es := by
  have h1 : pre.filterMap Event.call = [] := by
    apply List.filterMap_eq_nil_iff.mpr
    intro e he
    have := hpre e he
    cases e <;> simp_all [Event.isRead, Event.call]
  simp [writes_of, List.filterMap_append, List.filterMap_cons, h1, Event.call]

/-- The events of one `apply`, with the fail-fast relation between the plan of the
channel, the attempted writes and the returned code. -/
theorem apply_channel_events (hdr : Header) (ch : Channel) (state : light_state_t) (w : World) :
    ∃ pre es : List Event,
      (∀ e ∈ pre, e.isRead = true) ∧
      events_of (apply_channel hdr ch state) w =
        pre ++ Event.mutex_lock :: (es ++ [Event.mutex_unlock]) ∧
      (apply_channel hdr ch state w).2.trace =
        w.trace ++ events_of (apply_channel hdr ch state) w ∧
      attempted (events_of (apply_channel hdr ch state) w) = es ∧
      writes_of (events_of (apply_channel hdr ch state) w) = writes_of es ∧
      FailFast (plan hdr ch state) es (apply_channel hdr ch state w).1 := by
  obtain ⟨pre, es, hpre, htr, hff⟩ := apply_channel_shape hdr ch state w
  have hev := events_of_eq _ w _ htr
  refine ⟨pre, es, hpre, hev, ?_, ?_, ?_, hff⟩
  · rw [hev, htr]
  · rw [hev]
    exact attempted_shape pre es hpre hff.all_writes
  · rw [hev]
    exact writes_of_shape pre es hpre

/-! ## The Backlight and Buttons handlers -/

/-- C3: for every state and every world, the events of `set_light_backlight` are the lock,
one write of `rgb_to_brightness state` to `LCD_FILE`, and the unlock; exactly one write is
attempted, the value written lies between 0 and 255, and the handler returns the code of
that write. -/
theorem set_light_backlight_single_write (state : light_state_t) (w : World) :
    ∃ out : WriteOutcome,
      events_of (set_light_backlight state) w =
        [Event.mutex_lock, Event.write LCD_FILE (rgb_to_brightness state) out,
          Event.mutex_unlock] ∧
      (attempted (events_of (set_light_backlight state) w)).length = 1 ∧
      writes_of (events_of (set_light_backlight state) w) =
        [(LCD_FILE, rgb_to_brightness state)] ∧
      0 ≤ rgb_to_brightness state ∧ rgb_to_brightness state ≤ 255 ∧
      (set_light_backlight state w).1 = out.ret := by
  have hplan : plan android_header Channel.BACKLIGHT state =
      [(LCD_FILE, rgb_to_brightness state)] := by
    simp only [plan, rgb_to_brightness_eq_luminance]
  have hrun := locked_writes_single LCD_FILE (rgb_to_brightness state) w
  rw [← hplan, ← set_light_backlight_eq] at hrun
  have hev : events_of (set_light_backlight state) w =
      [Event.mutex_lock, Event.write LCD_FILE (rgb_to_brightness state)
          (w.kernel_write (w.trace ++ [Event.mutex_lock]) LCD_FILE (rgb_to_brightness state)),
        Event.mutex_unlock] :=
    events_of_eq _ w _ (by rw [hrun])
  refine ⟨_, hev, ?_, ?_, ?_, ?_, ?_⟩
  · rw [hev]; rfl
  · rw [hev]; rfl
  · rw [rgb_to_brightness_eq_luminance]; exact Int.ofNat_nonneg _
  · rw [rgb_to_brightness_eq_luminance]
    exact_mod_cast luminance_le state.color
  · rw [hrun]

/-- Every brightness from 0 to 255 is the luminance of a state: the gray of that level. -/
theorem rgb_to_brightness_gray (g : Nat) (hg : g ≤ 255)
    (flashMode flashOnMS flashOffMS brightnessMode : Int) :
    rgb_to_brightness ⟨g * 0x010101, flashMode, flashOnMS, flashOffMS, brightnessMode⟩ = g := by
  rw [rgb_to_brightness_eq_luminance]
  congr 1
  show luminance (g * 0x010101) = g
  interval_cases g <;> rfl

/-- The run of `set_light_buttons`: its events and the code it returns. -/
theorem set_light_buttons_run (state : light_state_t) (w : World) :
    events_of (set_light_buttons state) w =
        [Event.read BUTTON_BRIGHTNESS (w.kernel_read w.trace BUTTON_BRIGHTNESS), Event.mutex_lock,
          Event.write BUTTON_BRIGHTNESS (button_scale (rgb_to_brightness state))
            (w.kernel_write
              (w.trace ++ [Event.read BUTTON_BRIGHTNESS (w.kernel_read w.trace BUTTON_BRIGHTNESS),
                Event.mutex_lock])
              BUTTON_BRIGHTNESS (button_scale (rgb_to_brightness state))),
          Event.mutex_unlock] ∧
      (set_light_buttons state w).1 =
        (w.kernel_write
          (w.trace ++ [Event.read BUTTON_BRIGHTNESS (w.kernel_read w.trace BUTTON_BRIGHTNESS),
            Event.mutex_lock])
          BUTTON_BRIGHTNESS (button_scale (rgb_to_brightness state))).ret := by
  have hplan : plan android_header Channel.BUTTONS state =
      [(BUTTON_BRIGHTNESS, button_scale (rgb_to_brightness state))] := by
    simp only [plan, rgb_to_brightness_eq_luminance]
  have hrun := set_light_buttons_eq android_header state w
  rw [hplan, locked_writes_single] at hrun
  constructor
  · apply events_of_eq
    rw [hrun]
    simp [is_lit, read_int]
  · rw [hrun]
    simp [is_lit, read_int]

/-- C4: for every state and every world (hence every content of the button-brightness
file), the events of `set_light_buttons` are the read-back, the lock, one write to
`BUTTON_BRIGHTNESS` and the unlock.  With `b = rgb_to_brightness state` the value written is
`b / 8` when `b >= 8`, 1 when `0 < b < 8` and 0 otherwise; it is 0 only when `b` is 0; and
for `b` = 0, 1..7, 8, 16, 255 it is 0, 1, 1, 2, 31. -/
theorem set_light_buttons_single_write (state : light_state_t) (w : World) :
    ∃ (rout : ReadOutcome) (wout : WriteOutcome),
      events_of (set_light_buttons state) w =
        [Event.read BUTTON_BRIGHTNESS rout, Event.mutex_lock,
          Event.write BUTTON_BRIGHTNESS
            (if rgb_to_brightness state ≥ 8 then rgb_to_brightness state / 8
              else if 0 < rgb_to_brightness state ∧ rgb_to_brightness state < 8 then 1 else 0)
            wout,
          Event.mutex_unlock] ∧
      writes_of (events_of (set_light_buttons state) w) =
        [(BUTTON_BRIGHTNESS, button_scale (rgb_to_brightness state))] ∧
      (button_scale (rgb_to_brightness state) = 0 ↔ rgb_to_brightness state = 0) ∧
      (rgb_to_brightness state = 0 → button_scale (rgb_to_brightness state) = 0) ∧
      (1 ≤ rgb_to_brightness state → rgb_to_brightness state ≤ 7 →
        button_scale (rgb_to_brightness state) = 1) ∧
      (rgb_to_brightness state = 8 → button_scale (rgb_to_brightness state) = 1) ∧
      (rgb_to_brightness state = 16 → button_scale (rgb_to_brightness state) = 2) ∧
      (rgb_to_brightness state = 255 → button_scale (rgb_to_brightness state) = 31) := by
  obtain ⟨hev, -⟩ := set_light_buttons_run state w
  have hnn : 0 ≤ rgb_to_brightness state := by
    rw [rgb_to_brightness_eq_luminance]; exact Int.ofNat_nonneg _
  refine ⟨_, _, hev, ?_, ?_, ?_, ?_, ?_, ?_, ?_⟩
  · rw [hev]; rfl
  · unfold button_scale
    split_ifs <;> omega
  · intro h; rw [h]; rfl
  · intro h1 h7
    unfold button_scale
    split_ifs <;> omega
  · intro h; rw [h]; rfl
  · intro h; rw [h]; rfl
  · intro h; rw [h]; rfl

/-! ## The Notification handler -/

/-- C5: for every state of luminance 0, whatever its flash fields, the events of
`set_light_notifications` are the lock, one write of 0 to `BUTTON_STATE`, and the unlock:
no write goes to the pulse, pulse-interval or button-brightness path, and the handler
returns the code of that one write. -/
theorem set_light_notifications_off (hdr : Header) (state : light_state_t) (w : World)
    (hb : rgb_to_brightness state = 0) :
    ∃ out : WriteOutcome,
      events_of (set_light_notifications hdr state) w =
        [Event.mutex_lock, Event.write BUTTON_STATE 0 out, Event.mutex_unlock] ∧
      writes_of (events_of (set_light_notifications hdr state) w) = [(BUTTON_STATE, 0)] ∧
      (∀ pv ∈ writes_of (events_of (set_light_notifications hdr state) w),
        pv.1 ≠ BUTTON_PULSE ∧ pv.1 ≠ BUTTON_PULSE_INTERVAL ∧ pv.1 ≠ BUTTON_BRIGHTNESS) ∧
      (set_light_notifications hdr state w).1 = out.ret := by
  have hl : ((luminance state.color : Nat) : Int) = 0 := by
    rw [← rgb_to_brightness_eq_luminance]; exact hb
  have hplan : plan hdr Channel.NOTIFICATION state = [(BUTTON_STATE, 0)] := by
    simp [plan, hl]
  have hrun := locked_writes_single BUTTON_STATE 0 w
  rw [← hplan, ← set_light_notifications_eq] at hrun
  have hev : events_of (set_light_notifications hdr state) w =
      [Event.mutex_lock,
        Event.write BUTTON_STATE 0 (w.kernel_write (w.trace ++ [Event.mutex_lock]) BUTTON_STATE 0),
        Event.mutex_unlock] :=
    events_of_eq _ w _ (by rw [hrun])
  refine ⟨_, hev, ?_, ?_, ?_⟩
  · rw [hev]; rfl
  · rw [hev]
    intro pv hpv
    have hpv1 : pv = (BUTTON_STATE, 0) := by
      simpa [writes_of, Event.call] using hpv
    rw [hpv1]
    decide
  · rw [hrun]

/-- C6: for every state of luminance `b > 0`, when every write of the call succeeds, the
writes of `set_light_notifications` are, in this order: `flashOnMS` to `BUTTON_PULSE` and
`flashOffMS` to `BUTTON_PULSE_INTERVAL` if the flash mode is TIMED or HARDWARE and both
durations are nonzero; then `b` to `BUTTON_BRIGHTNESS` and 1 to `BUTTON_STATE`; and the
handler returns 0.  Without the flash condition the two writes of `b` and 1 are the only
ones; for TIMED with 500 and 500 the sequence is 500, 500, `b`, 1. -/
theorem set_light_notifications_sequence (hdr : Header) (state : light_state_t) (w : World)
    (hb : 0 < rgb_to_brightness state)
    (hok : ∀ e ∈ events_of (set_light_notifications hdr state) w, e.code = 0) :
    writes_of (events_of (set_light_notifications hdr state) w) =
        (if (state.flashMode = hdr.LIGHT_FLASH_TIMED ∨
              state.flashMode = hdr.LIGHT_FLASH_HARDWARE) ∧
            state.flashOnMS ≠ 0 ∧ state.flashOffMS ≠ 0 then
          [(BUTTON_PULSE, state.flashOnMS), (BUTTON_PULSE_INTERVAL, state.flashOffMS)]
        else []) ++
          [(BUTTON_BRIGHTNESS, rgb_to_brightness state), (BUTTON_STATE, 1)] ∧
      (set_light_notifications hdr state w).1 = 0 ∧
      (¬ flashing hdr state →
        writes_of (events_of (set_light_notifications hdr state) w) =
          [(BUTTON_BRIGHTNESS, rgb_to_brightness state), (BUTTON_STATE, 1)]) ∧
      (state.flashMode = hdr.LIGHT_FLASH_TIMED → state.flashOnMS = 500 →
        state.flashOffMS = 500 →
        writes_of (events_of (set_light_notifications hdr state) w) =
          [(BUTTON_PULSE, 500), (BUTTON_PULSE_INTERVAL, 500),
            (BUTTON_BRIGHTNESS, rgb_to_brightness state), (BUTTON_STATE, 1)]) := by
  obtain ⟨pre, es, hpre, hev, -, -, hwr, hff⟩ :=
    apply_channel_events hdr Channel.NOTIFICATION state w
  simp only [apply_channel] at hev hwr hff
  have hes : ∀ e ∈ es, e.code = 0 := by
    intro e he
    apply hok e
    rw [hev]
    simp [he]
  obtain ⟨hpl, hret⟩ := hff.all_ok hes
  have hl : ¬ ((luminance state.color : Nat) : Int) = 0 := by
    rw [← rgb_to_brightness_eq_luminance]; omega
  have hplan : plan hdr Channel.NOTIFICATION state =
      (if flashing hdr state then
          [(BUTTON_PULSE, state.flashOnMS), (BUTTON_PULSE_INTERVAL, state.flashOffMS)]
        else []) ++ [(BUTTON_BRIGHTNESS, rgb_to_brightness state), (BUTTON_STATE, 1)] := by
    simp only [plan, hl, if_false, rgb_to_brightness_eq_luminance]
  rw [hwr, hpl, hplan]
  refine ⟨rfl, hret, ?_, ?_⟩
  · intro hnf
    rw [if_neg hnf]
    rfl
  · intro hm hon hoff
    have hf : flashing hdr state := by
      refine ⟨Or.inl hm, ?_, ?_⟩
      · rw [hon]; decide
      · rw [hoff]; decide
    rw [if_pos hf, hon, hoff]
    rfl

/-! ## Failing writes -/

theorem plan_ne_nil (hdr : Header) (ch : Channel) (state : light_state_t) :
    plan hdr ch state ≠ [] := by
  cases ch with
  | BACKLIGHT => simp [plan]
  | BUTTONS => simp [plan]
  | NOTIFICATION =>
    simp only [plan]
    split_ifs <;> simp

theorem pulse_path_distinct :
    BUTTON_PULSE ≠ BUTTON_STATE ∧ BUTTON_PULSE ≠ BUTTON_PULSE_INTERVAL ∧
      BUTTON_PULSE ≠ BUTTON_BRIGHTNESS := by
  decide

theorem writeFailed_isWrite (e : Event) (h : e.writeFailed = true) : e.isWrite = true := by
  cases e <;> simp_all [Event.writeFailed, Event.isWrite]

theorem mem_attempted {es : List Event} {e : Event} :
    e ∈ attempted es ↔ e ∈ es ∧ e.isWrite = true := by
  simp [attempted, List.mem_filter]

/-- A failing write to the pulse file is the only write of a Notification call. -/
theorem pulse_failure_alone (hdr : Header) (state : light_state_t) (es : List Event) (ret : Int)
    (hff : FailFast (plan hdr Channel.NOTIFICATION state) es ret)
    (value : Int) (out : WriteOutcome) (hmem : Event.write BUTTON_PULSE value out ∈ es)
    (hne : out.ret ≠ 0) :
    es = [Event.write BUTTON_PULSE value out] ∧ ret = out.ret := by
  obtain ⟨h1, h2, h3⟩ := pulse_path_distinct
  have hno : ∀ (l : List (String × Int)) (es1 : List Event),
      (∀ e ∈ es1, ∃ pv ∈ l, e.call = some pv) → (∀ pv ∈ l, pv.1 ≠ BUTTON_PULSE) →
      Event.write BUTTON_PULSE value out ∉ es1 := by
    intro l es1 hcalls hl hin
    obtain ⟨pv, hpv, hc⟩ := hcalls _ hin
    simp only [Event.call, Option.some.injEq] at hc
    exact hl pv hpv (by rw [← hc])
  simp only [plan] at hff
  split_ifs at hff with hb hf
  · exact absurd hmem (hno _ es hff.calls_mem (by simp [Ne.symm h1]))
  · simp only [List.cons_append, List.nil_append] at hff
    obtain ⟨out1, es1, hes, hstop, hrest⟩ := hff.first
    rw [hes] at hmem
    rcases List.mem_cons.mp hmem with heq | hin
    · simp only [Event.write.injEq, true_and] at heq
      obtain ⟨hv, ho⟩ := heq
      subst ho
      obtain ⟨hnil, hret⟩ := hstop hne
      rw [hes, hnil, hret, hv]
      exact ⟨rfl, rfl⟩
    · exact absurd hin (hno _ es1 hrest (by simp [Ne.symm h1, Ne.symm h2, Ne.symm h3]))
  · exact absurd hmem (hno _ es hff.calls_mem (by simp [Ne.symm h1, Ne.symm h3]))

/-- C7: for every channel, state and world (every assignment of outcomes to the writes):
the trace is only extended; the writes attempted are, in order, a prefix of the plan of the
channel; every attempted write but the last returned 0; the code returned is the code of the
last attempted write; it is 0 exactly when the whole plan was attempted and every write
returned 0; and in a Notification call a failing write to the pulse file is the only write
attempted and its code is the code returned. -/
theorem apply_stops_at_first_failure (hdr : Header) (ch : Channel) (state : light_state_t)
    (w : World) :
    (apply_channel hdr ch state w).2.trace =
        w.trace ++ events_of (apply_channel hdr ch state) w ∧
      writes_of (events_of (apply_channel hdr ch state) w) <+: plan hdr ch state ∧
      (∀ e ∈ (attempted (events_of (apply_channel hdr ch state) w)).dropLast, e.code = 0) ∧
      (attempted (events_of (apply_channel hdr ch state) w)).getLast?.map Event.code =
        some (apply_channel hdr ch state w).1 ∧
      ((apply_channel hdr ch state w).1 = 0 ↔
        (writes_of (events_of (apply_channel hdr ch state) w) = plan hdr ch state ∧
          ∀ e ∈ attempted (events_of (apply_channel hdr ch state) w), e.code = 0)) ∧
      (∀ (value : Int) (out : WriteOutcome), ch = Channel.NOTIFICATION →
        Event.write BUTTON_PULSE value out ∈ events_of (apply_channel hdr ch state) w →
        out.ret ≠ 0 →
        attempted (events_of (apply_channel hdr ch state) w) =
            [Event.write BUTTON_PULSE value out] ∧
          (apply_channel hdr ch state w).1 = out.ret) := by
  obtain ⟨pre, es, hpre, hev, htr, hatt, hwr, hff⟩ := apply_channel_events hdr ch state w
  refine ⟨htr, ?_, ?_, ?_, ?_, ?_⟩
  · rw [hwr]; exact hff.calls_prefix
  · rw [hatt]; exact hff.dropLast_ok
  · rw [hatt]; exact hff.last_code (plan_ne_nil hdr ch state)
  · rw [hwr, hatt]; exact hff.zero_iff
  · intro value out hch hmem hne
    subst hch
    have hin : Event.write BUTTON_PULSE value out ∈ es := by
      rw [← hatt]
      exact mem_attempted.mpr ⟨hmem, rfl⟩
    rw [hatt]
    exact pulse_failure_alone hdr state es _ hff value out hin hne

/-! ## Reported and unreported failures -/

/-- C9 (as amended): for every channel, state and world, `apply` returns a nonzero code
exactly when the `open` or the `write` of one of its `write_int` calls failed, and that code
is negative; the read-back of the Buttons channel has no part in the result, which is the
code of the one write of the call whatever the read returned. -/
theorem apply_reports_write_failures (hdr : Header) (ch : Channel) (state : light_state_t)
    (w : World) :
    ((∃ e ∈ events_of (apply_channel hdr ch state) w, e.writeFailed = true) ↔
        (apply_channel hdr ch state w).1 ≠ 0) ∧
      (apply_channel hdr ch state w).1 ≤ 0 ∧
      ∃ (rout : ReadOutcome) (value : Int) (wout : WriteOutcome),
        events_of (apply_channel hdr Channel.BUTTONS state) w =
          [Event.read BUTTON_BRIGHTNESS rout, Event.mutex_lock,
            Event.write BUTTON_BRIGHTNESS value wout, Event.mutex_unlock] ∧
        (apply_channel hdr Channel.BUTTONS state w).1 = wout.ret := by
  obtain ⟨pre, es, hpre, hev, htr, hatt, hwr, hff⟩ := apply_channel_events hdr ch state w
  refine ⟨?_, hff.nonpos, ?_⟩
  · rw [hff.failed_iff]
    constructor
    · rintro ⟨e, he, hf⟩
      refine ⟨e, ?_, hf⟩
      rw [← hatt]
      exact mem_attempted.mpr ⟨he, writeFailed_isWrite e hf⟩
    · rintro ⟨e, he, hf⟩
      refine ⟨e, ?_, hf⟩
      rw [hev]
      simp [he]
  · exact ⟨_, _, _, set_light_buttons_run state w⟩

/-- C9 fails as stated: in a world where the button-brightness file cannot be opened for
reading, the read-back of the Buttons channel fails and `apply` still returns 0. -/
theorem buttons_read_failure_unreported :
    (∃ e ∈ events_of (apply_channel android_header Channel.BUTTONS state_flash) world_unreadable,
        e.ioFailed = true) ∧
      (apply_channel android_header Channel.BUTTONS state_flash world_unreadable).1 = 0 := by
  refine ⟨⟨Event.read BUTTON_BRIGHTNESS (ReadOutcome.open_failed ENOENT), ?_, rfl⟩, ?_⟩
  · decide
  · decide

/-! ## The lock -/

theorem filter_eq_nil_of (l : List Event) (p q : Event → Bool) (h : ∀ e ∈ l, p e = true)
    (hpq : ∀ e, p e = true → q e = false) : l.filter q = [] := by
  apply List.filter_eq_nil_iff.mpr
  intro e he
  rw [hpq e (h e he)]
  exact Bool.false_ne_true

theorem isRead_excludes (e : Event) (h : e.isRead = true) :
    e.isWrite = false ∧ e.isLock = false ∧ e.isUnlock = false := by
  cases e <;> simp_all [Event.isRead, Event.isWrite, Event.isLock, Event.isUnlock]

theorem isWrite_excludes (e : Event) (h : e.isWrite = true) :
    e.isLock = false ∧ e.isUnlock = false := by
  cases e <;> simp_all [Event.isWrite, Event.isLock, Event.isUnlock]

/-- C10: for every channel, state and world (every pattern of write failures), the events of
one `apply` extend the trace and consist of events that are neither writes nor lock
operations, then the lock, then only writes, then the unlock as the last event; the lock is
taken exactly once and released exactly once. -/
theorem apply_lock_discipline (hdr : Header) (ch : Channel) (state : light_state_t)
    (w : World) :
    (apply_channel hdr ch state w).2.trace =
        w.trace ++ events_of (apply_channel hdr ch state) w ∧
      ((events_of (apply_channel hdr ch state) w).filter Event.isLock).length = 1 ∧
      ((events_of (apply_channel hdr ch state) w).filter Event.isUnlock).length = 1 ∧
      (events_of (apply_channel hdr ch state) w).getLast? = some Event.mutex_unlock ∧
      ∃ pre ws : List Event,
        events_of (apply_channel hdr ch state) w =
          pre ++ Event.mutex_lock :: (ws ++ [Event.mutex_unlock]) ∧
        (∀ e ∈ pre, e.isWrite = false ∧ e.isLock = false ∧ e.isUnlock = false) ∧
        (∀ e ∈ ws, e.isWrite = true) ∧
        attempted (events_of (apply_channel hdr ch state) w) = ws := by
  obtain ⟨pre, es, hpre, hev, htr, hatt, -, hff⟩ := apply_channel_events hdr ch state w
  have hes := hff.all_writes
  have h1 : pre.filter Event.isLock = [] :=
    filter_eq_nil_of pre _ _ hpre (fun e he => (isRead_excludes e he).2.1)
  have h2 : pre.filter Event.isUnlock = [] :=
    filter_eq_nil_of pre _ _ hpre (fun e he => (isRead_excludes e he).2.2)
  have h3 : es.filter Event.isLock = [] :=
    filter_eq_nil_of es _ _ hes (fun e he => (isWrite_excludes e he).1)
  have h4 : es.filter Event.isUnlock = [] :=
    filter_eq_nil_of es _ _ hes (fun e he => (isWrite_excludes e he).2)
  refine ⟨htr, ?_, ?_, ?_, pre, es, hev, fun e he => isRead_excludes e (hpre e he), hes, hatt⟩
  · rw [hev]
    simp [List.filter_append, List.filter_cons, h1, h3, Event.isLock]
  · rw [hev]
    simp [List.filter_append, List.filter_cons, h2, h4, Event.isUnlock]
  · rw [hev]
    have hcat : pre ++ Event.mutex_lock :: (es ++ [Event.mutex_unlock]) =
        (pre ++ Event.mutex_lock :: es) ++ [Event.mutex_unlock] := by simp
    rw [hcat, List.getLast?_concat]

/-! ## Opening a device -/

/-- C8: when the three channel names of the header are distinct, `open_lights` on the
backlight, buttons or notifications name returns 0 and stores a device whose `set_light` is
`set_light_backlight`, `set_light_buttons` or `set_light_notifications` respectively; on
every other name it returns `-EINVAL`, stores no device and leaves the world as it was; and
no call of `open_lights` adds a control-file write or read to the trace. -/
theorem open_lights_binds (hdr : Header) (name : String) (w : World)
    (hdistinct : hdr.LIGHT_ID_BACKLIGHT ≠ hdr.LIGHT_ID_BUTTONS ∧
      hdr.LIGHT_ID_BACKLIGHT ≠ hdr.LIGHT_ID_NOTIFICATIONS ∧
      hdr.LIGHT_ID_BUTTONS ≠ hdr.LIGHT_ID_NOTIFICATIONS) :
    (name = hdr.LIGHT_ID_BACKLIGHT →
        ∃ dev : light_device_t, (open_lights hdr name w).1 = (0, some dev) ∧
          dev.set_light = set_light_backlight) ∧
      (name = hdr.LIGHT_ID_BUTTONS →
        ∃ dev : light_device_t, (open_lights hdr name w).1 = (0, some dev) ∧
          dev.set_light = set_light_buttons) ∧
      (name = hdr.LIGHT_ID_NOTIFICATIONS →
        ∃ dev : light_device_t, (open_lights hdr name w).1 = (0, some dev) ∧
          dev.set_light = set_light_notifications hdr) ∧
      (name ≠ hdr.LIGHT_ID_BACKLIGHT → name ≠ hdr.LIGHT_ID_BUTTONS →
        name ≠ hdr.LIGHT_ID_NOTIFICATIONS →
        open_lights hdr name w = ((-hdr.EINVAL, none), w)) ∧
      (∀ e ∈ events_of (open_lights hdr name) w, e.isWrite = false ∧ e.isRead = false) := by
  obtain ⟨h12, h13, h23⟩ := hdistinct
  refine ⟨?_, ?_, ?_, ?_, ?_⟩
  · intro h
    subst h
    exact ⟨⟨set_light_backlight⟩, by simp [open_lights], rfl⟩
  · intro h
    subst h
    exact ⟨⟨set_light_buttons⟩, by simp [open_lights, h12], rfl⟩
  · intro h
    subst h
    exact ⟨⟨set_light_notifications hdr⟩, by simp [open_lights, h13, h23], rfl⟩
  · intro h1 h2 h3
    simp [open_lights, Ne.symm h1, Ne.symm h2, Ne.symm h3]
  · have hev : events_of (open_lights hdr name) w = [] ∨
        events_of (open_lights hdr name) w = [Event.mutex_init] := by
      by_cases h1 : hdr.LIGHT_ID_BACKLIGHT = name
      · cases hg : w.g_init <;>
          simp [open_lights, events_of, h1, pthread_once_g_init, init_globals, emit, hg]
      · by_cases h2 : hdr.LIGHT_ID_BUTTONS = name
        · cases hg : w.g_init <;>
            simp [open_lights, events_of, h1, h2, pthread_once_g_init, init_globals, emit, hg]
        · by_cases h3 : hdr.LIGHT_ID_NOTIFICATIONS = name
          · cases hg : w.g_init <;>
              simp [open_lights, events_of, h1, h2, h3, pthread_once_g_init, init_globals, emit, hg]
          · simp [open_lights, events_of, h1, h2, h3]
    intro e he
    rcases hev with hev | hev
    · rw [hev] at he
      cases he
    · rw [hev, List.mem_singleton] at he
      subst he
      exact ⟨rfl, rfl⟩

/-! ## Concrete instances -/

/-- Instance of C5: a black state whose most-significant byte is set, in a world where
every write succeeds. -/
theorem set_light_notifications_off_witness :
    rgb_to_brightness state_off = 0 ∧
      ∃ out : WriteOutcome,
        events_of (set_light_notifications android_header state_off) world_ok =
          [Event.mutex_lock, Event.write BUTTON_STATE 0 out, Event.mutex_unlock] ∧
        writes_of (events_of (set_light_notifications android_header state_off) world_ok) =
          [(BUTTON_STATE, 0)] ∧
        (∀ pv ∈ writes_of (events_of (set_light_notifications android_header state_off) world_ok),
          pv.1 ≠ BUTTON_PULSE ∧ pv.1 ≠ BUTTON_PULSE_INTERVAL ∧ pv.1 ≠ BUTTON_BRIGHTNESS) ∧
        (set_light_notifications android_header state_off world_ok).1 = out.ret :=
  ⟨by decide, set_light_notifications_off android_header state_off world_ok (by decide)⟩

/-- Instance of C6: a white notification flashing 500/500 in TIMED mode, in a world where
every write succeeds. -/
theorem set_light_notifications_sequence_witness :
    0 < rgb_to_brightness state_flash ∧
      (∀ e ∈ events_of (set_light_notifications android_header state_flash) world_ok,
        e.code = 0) ∧
      writes_of (events_of (set_light_notifications android_header state_flash) world_ok) =
        [(BUTTON_PULSE, 500), (BUTTON_PULSE_INTERVAL, 500), (BUTTON_BRIGHTNESS, 255),
          (BUTTON_STATE, 1)] ∧
      (set_light_notifications android_header state_flash world_ok).1 = 0 :=
  ⟨by decide, by decide,
    (set_light_notifications_sequence android_header state_flash world_ok (by decide)
      (by decide)).2.2.2 rfl rfl rfl,
    (set_light_notifications_sequence android_header state_flash world_ok (by decide)
      (by decide)).2.1⟩

/-- Instance of C8: the Android names are distinct, and opening "buttons" binds
`set_light_buttons`. -/
theorem open_lights_binds_witness :
    (android_header.LIGHT_ID_BACKLIGHT ≠ android_header.LIGHT_ID_BUTTONS ∧
        android_header.LIGHT_ID_BACKLIGHT ≠ android_header.LIGHT_ID_NOTIFICATIONS ∧
        android_header.LIGHT_ID_BUTTONS ≠ android_header.LIGHT_ID_NOTIFICATIONS) ∧
      (∃ dev : light_device_t,
        (open_lights android_header "buttons" world_ok).1 = (0, some dev) ∧
          dev.set_light = set_light_buttons) ∧
      open_lights android_header "keyboard" world_ok = ((-22, none), world_ok) :=
  ⟨by decide,
    (open_lights_binds android_header "buttons" world_ok (by decide)).2.1 rfl,
    (open_lights_binds android_header "keyboard" world_ok (by decide)).2.2.2.1
      (by decide) (by decide) (by decide)⟩

/-- Instance of C7: a flashing white notification in a world where the write to the pulse
file fails: that write is the only one attempted and its code, `-EIO`, is returned. -/
theorem apply_stops_at_first_failure_witness :
    attempted (events_of (apply_channel android_header Channel.NOTIFICATION state_flash)
        world_pulse_fails) =
        [Event.write BUTTON_PULSE 500 (WriteOutcome.write_failed EIO)] ∧
      (apply_channel android_header Channel.NOTIFICATION state_flash world_pulse_fails).1 = -5 :=
  (apply_stops_at_first_failure android_header Channel.NOTIFICATION state_flash
    world_pulse_fails).2.2.2.2.2 500 (WriteOutcome.write_failed EIO) rfl (by decide) (by decide)

end Lights
